import Mathlib

/-!
Shallow embedding of the blog-generation pipeline of `bl_Monkee`
(`src/unnamed/part_000`, the Gemini service module, together with the proxy
backend `src/backend/server.js`).

The service code is dynamically-typed JavaScript/TypeScript, so runtime
values flowing out of `JSON.parse` and out of HTTP response bodies are
modelled by an inductive `JsonVal` type, with `Option JsonVal` playing the
role of a possibly-`undefined` JavaScript value.  Every stage function is
translated from the source; the network (the `fetch` boundary) is a
parameter `Gateway` mapping a request to either a thrown network error or an
HTTP response.  Effects are modelled by `StM`, a writer-plus-exceptions
monad recording the emitted progress messages and outgoing gateway calls, so
that ordering claims are provable and errors propagate as in the source.
-/

/-- JSON values, as produced by `JSON.parse`.  Numbers keep their raw
    lexeme, which is enough for this code base (no arithmetic is done on
    parsed numbers anywhere in the service). -/
inductive JsonVal where
  | jnull : JsonVal
  | jbool : Bool → JsonVal
  | jnum : String → JsonVal
  | jstr : String → JsonVal
  | jarr : List JsonVal → JsonVal
  | jobj : List (String × JsonVal) → JsonVal

/-- JavaScript member access `v.key` on a parsed JSON value: defined for
    objects (last duplicate key wins, as in `JSON.parse`), `undefined`
    (modelled as `none`) otherwise. -/
def jget : JsonVal → String → Option JsonVal
  | .jobj fields, key =>
      fields.foldl (fun acc kv => if kv.1 = key then some kv.2 else acc) none
  | _, _ => none

mutual

/-- JavaScript string conversion of a value, as performed inside a template
    literal: strings verbatim, arrays joined with commas, objects as
    `[object Object]`. -/
def jsShowVal : JsonVal → String
  | .jnull => "null"
  | .jbool true => "true"
  | .jbool false => "false"
  | .jnum l => l
  | .jstr s => s
  | .jarr items => jsShowElems items
  | .jobj _ => "[object Object]"

def jsShowElems : List JsonVal → String
  | [] => ""
  | [v] => jsShowVal v
  | v :: rest => jsShowVal v ++ "," ++ jsShowElems rest

end

/-- Template-literal interpolation of a possibly-`undefined` value. -/
def jsShow : Option JsonVal → String
  | none => "undefined"
  | some v => jsShowVal v

/-- JSON string escaping used by `JSON.stringify`. -/
def jsEscapeChar (c : Char) : String :=
  if c = '"' then "\\\""
  else if c = '\\' then "\\\\"
  else if c = '\n' then "\\n"
  else if c = '\t' then "\\t"
  else if c = '\r' then "\\r"
  else String.singleton c

def jsEscape (s : String) : String :=
  String.join (s.data.map jsEscapeChar)

def jstrQuote (s : String) : String :=
  "\"" ++ jsEscape s ++ "\""

mutual

/-- `JSON.stringify` on a defined JSON value. -/
def jsonStringify : JsonVal → String
  | .jnull => "null"
  | .jbool true => "true"
  | .jbool false => "false"
  | .jnum l => l
  | .jstr s => jstrQuote s
  | .jarr items => "[" ++ stringifyElems items ++ "]"
  | .jobj fields => "\x7b" ++ stringifyFields fields ++ "\x7d"

def stringifyElems : List JsonVal → String
  | [] => ""
  | [v] => jsonStringify v
  | v :: rest => jsonStringify v ++ "," ++ stringifyElems rest

def stringifyFields : List (String × JsonVal) → String
  | [] => ""
  | [kv] => jstrQuote kv.1 ++ ":" ++ jsonStringify kv.2
  | kv :: rest => jstrQuote kv.1 ++ ":" ++ jsonStringify kv.2 ++ "," ++ stringifyFields rest

end

/-- `JSON.stringify` drops object entries whose value is `undefined`; this
    builds an object from possibly-`undefined` members accordingly. -/
def jobjOfOpt (fields : List (String × Option JsonVal)) : JsonVal :=
  .jobj (fields.filterMap (fun kv => kv.2.map (fun v => (kv.1, v))))

/-- JavaScript falsiness of a possibly-`undefined` value (`undefined`,
    `null`, `false`, `""`, `0` are falsy). -/
def jsFalsy : Option JsonVal → Bool
  | none => true
  | some .jnull => true
  | some (.jbool b) => !b
  | some (.jstr s) => s.isEmpty
  | some (.jnum l) => l = "0" || l = "-0"
  | some (.jarr _) => false
  | some (.jobj _) => false

/-- The JavaScript `a || b` operator on values. -/
def jsOr (a b : Option JsonVal) : Option JsonVal :=
  if jsFalsy a then b else a

/-! ### A JSON parser modelling `JSON.parse`

Fuel-based recursive descent over the character list.  The fuel passed by
`jsonParse` is generous enough for every input whose parse-call depth is
bounded by three times its length, which covers all JSON texts this code
base ever parses; on fuel exhaustion the parser fails like a syntax error. -/

def jsonWs (c : Char) : Bool :=
  c = ' ' || c = '\n' || c = '\t' || c = '\r'

def skipWs : List Char → List Char
  | [] => []
  | c :: cs => if jsonWs c then skipWs cs else c :: cs

/-- Scan the characters of a JSON string literal after the opening quote,
    returning the decoded characters and the remainder after the closing
    quote. -/
def jsonStrChars : List Char → Option (List Char × List Char)
  | [] => none
  | '"' :: rest => some ([], rest)
  | '\\' :: e :: rest =>
      let dec : Option Char :=
        if e = '"' then some '"'
        else if e = '\\' then some '\\'
        else if e = '/' then some '/'
        else if e = 'n' then some '\n'
        else if e = 't' then some '\t'
        else if e = 'r' then some '\r'
        else none
      match dec with
      | none => none
      | some d =>
        match jsonStrChars rest with
        | some (l, r) => some (d :: l, r)
        | none => none
  | c :: rest =>
      match jsonStrChars rest with
      | some (l, r) => some (c :: l, r)
      | none => none

def jsonNumChar (c : Char) : Bool :=
  c.isDigit || c = '-' || c = '+' || c = '.' || c = 'e' || c = 'E'

def jsonNumChars : List Char → List Char × List Char
  | [] => ([], [])
  | c :: cs =>
      if jsonNumChar c then
        let (l, r) := jsonNumChars cs
        (c :: l, r)
      else ([], c :: cs)

mutual

def jsonParseVal : Nat → List Char → Option (JsonVal × List Char)
  | 0, _ => none
  | fuel + 1, cs =>
    match skipWs cs with
    | [] => none
    | '"' :: rest =>
        match jsonStrChars rest with
        | some (l, r) => some (.jstr (String.mk l), r)
        | none => none
    | '{' :: rest => jsonParseObj fuel rest
    | '[' :: rest => jsonParseArr fuel rest
    | 't' :: 'r' :: 'u' :: 'e' :: rest => some (.jbool true, rest)
    | 'f' :: 'a' :: 'l' :: 's' :: 'e' :: rest => some (.jbool false, rest)
    | 'n' :: 'u' :: 'l' :: 'l' :: rest => some (.jnull, rest)
    | c :: rest =>
        if c.isDigit || c = '-' then
          let (l, r) := jsonNumChars rest
          some (.jnum (String.mk (c :: l)), r)
        else none

/-- Parse an object body, positioned just after the opening brace. -/
def jsonParseObj : Nat → List Char → Option (JsonVal × List Char)
  | 0, _ => none
  | fuel + 1, cs =>
    match skipWs cs with
    | '}' :: rest => some (.jobj [], rest)
    | other =>
      match jsonParseMembers fuel other with
      | some (fields, rest) => some (.jobj fields, rest)
      | none => none

/-- Parse one or more `"key": value` members, up to and including the
    closing brace. -/
def jsonParseMembers : Nat → List Char → Option (List (String × JsonVal) × List Char)
  | 0, _ => none
  | fuel + 1, cs =>
    match skipWs cs with
    | '"' :: rest =>
      match jsonStrChars rest with
      | none => none
      | some (keyChars, afterKey) =>
        match skipWs afterKey with
        | ':' :: afterColon =>
          match jsonParseVal fuel afterColon with
          | none => none
          | some (v, afterVal) =>
            match skipWs afterVal with
            | ',' :: afterComma =>
              match jsonParseMembers fuel afterComma with
              | some (fields, rest) => some ((String.mk keyChars, v) :: fields, rest)
              | none => none
            | '}' :: rest => some ([(String.mk keyChars, v)], rest)
            | _ => none
        | _ => none
    | _ => none

/-- Parse an array body, positioned just after the opening bracket. -/
def jsonParseArr : Nat → List Char → Option (JsonVal × List Char)
  | 0, _ => none
  | fuel + 1, cs =>
    match skipWs cs with
    | ']' :: rest => some (.jarr [], rest)
    | other =>
      match jsonParseElems fuel other with
      | some (items, rest) => some (.jarr items, rest)
      | none => none

/-- Parse one or more array elements, up to and including the closing
    bracket. -/
def jsonParseElems : Nat → List Char → Option (List JsonVal × List Char)
  | 0, _ => none
  | fuel + 1, cs =>
    match jsonParseVal fuel cs with
    | none => none
    | some (v, afterVal) =>
      match skipWs afterVal with
      | ',' :: afterComma =>
        match jsonParseElems fuel afterComma with
        | some (items, rest) => some (v :: items, rest)
        | none => none
      | ']' :: rest => some ([v], rest)
      | _ => none

end

/-- `JSON.parse`: parses the whole text as one JSON value, failing (a thrown
    `SyntaxError`, modelled as `Except.error`) on any malformed input. -/
def jsonParse (s : String) : Except String JsonVal :=
  match jsonParseVal (3 * s.length + 16) s.data with
  | some (v, rest) =>
      if skipWs rest = [] then .ok v
      else .error "SyntaxError: Unexpected non-whitespace character after JSON"
  | none => .error "SyntaxError: Unexpected token in JSON"

/-! ### String utilities mirroring the regex post-processing of
`generateFullContent` -/

/-- Does `pat` occur as a contiguous substring of `l`? -/
def listHasSubstr (pat : List Char) : List Char → Bool
  | [] => pat.isPrefixOf []
  | c :: cs => pat.isPrefixOf (c :: cs) || listHasSubstr pat cs

def hasSubstr (s pat : String) : Bool :=
  listHasSubstr pat.data s.data

/-- Substring occurrence as a proposition: `s = pre ++ pat ++ suf`. -/
def IsSubstring (pat s : String) : Prop :=
  ∃ pre suf : String, s = pre ++ pat ++ suf

/-- `String.prototype.replace` with a plain-string pattern: replace the
    first occurrence only; the string is returned unchanged when the pattern
    does not occur. -/
def replaceFirstAux (pat rep : List Char) : List Char → Option (List Char)
  | [] => if pat.isPrefixOf [] then some rep else none
  | c :: cs =>
      if pat.isPrefixOf (c :: cs) then some (rep ++ (c :: cs).drop pat.length)
      else
        match replaceFirstAux pat rep cs with
        | some r => some (c :: r)
        | none => none

def replaceFirst (s pat rep : String) : String :=
  match replaceFirstAux pat.data rep.data s.data with
  | some r => String.mk r
  | none => s

/-- List-based counterparts of the JavaScript string primitives; the
    built-in `String` operations are position-based and do not reduce well
    inside the kernel. -/
def strStartsWith (s pre : String) : Bool :=
  pre.data.isPrefixOf s.data

def strEndsWith (s suf : String) : Bool :=
  suf.data.isSuffixOf s.data

def strDrop (s : String) (n : Nat) : String :=
  String.mk (s.data.drop n)

def strDropRight (s : String) (n : Nat) : String :=
  String.mk (s.data.take (s.data.length - n))

/-- `String.prototype.substring(0, n)`. -/
def strTake (s : String) (n : Nat) : String :=
  String.mk (s.data.take n)

def strLen (s : String) : Nat :=
  s.data.length

/-- `String.prototype.trim()`. -/
def strTrim (s : String) : String :=
  String.mk (((s.data.dropWhile Char.isWhitespace).reverse.dropWhile Char.isWhitespace).reverse)

/-- `.replace(/^```html|```$/g, '')`: without the multiline flag the two
    anchored alternatives can only strip a leading ```` ```html ```` fence
    and a trailing ```` ``` ```` fence. -/
def stripFences (s : String) : String :=
  let s1 := if strStartsWith s "```html" then strDrop s 7 else s
  if strEndsWith s1 "```" then strDropRight s1 3 else s1

/-- Does the list start with `<h2>` or `<h3>`? -/
def isOpenTag : List Char → Bool
  | '<' :: 'h' :: d :: '>' :: _ => d = '2' || d = '3'
  | _ => false

/-- Does the list start with `</h2>` or `</h3>`? -/
def isCloseTag : List Char → Bool
  | '<' :: '/' :: 'h' :: d :: '>' :: _ => d = '2' || d = '3'
  | _ => false

/-- Scan for the earliest closing `</h2>`/`</h3>` (the non-greedy `.*?`),
    failing on a newline (`.` does not match newlines); returns the inner
    text and the remainder after the closing tag. -/
def splitClose : List Char → Option (List Char × List Char)
  | [] => none
  | c :: cs =>
      if isCloseTag (c :: cs) then some ([], (c :: cs).drop 5)
      else if c = '\n' then none
      else
        match splitClose cs with
        | some (inner, rest) => some (c :: inner, rest)
        | none => none

/-- All matches of `/<h[23]>(.*?)<\/h[23]>/g`, in document order, as the
    full matched substrings (`content.match(...)`). -/
def findHeadingsAux : Nat → List Char → List String
  | 0, _ => []
  | _ + 1, [] => []
  | fuel + 1, c :: cs =>
      if isOpenTag (c :: cs) then
        match splitClose ((c :: cs).drop 4) with
        | some (inner, after) =>
            String.mk ((c :: cs).take (4 + inner.length + 5)) :: findHeadingsAux fuel after
        | none => findHeadingsAux fuel cs
      else findHeadingsAux fuel cs

def findHeadings (s : String) : List String :=
  findHeadingsAux s.data.length s.data

/-- `heading.replace(/<\/?h[23]>/g, '')`: delete every `<h2>`, `<h3>`,
    `</h2>`, `</h3>` occurrence. -/
def stripHeadingTagsAux : Nat → List Char → List Char
  | 0, l => l
  | _ + 1, [] => []
  | fuel + 1, c :: cs =>
      if isOpenTag (c :: cs) then stripHeadingTagsAux fuel ((c :: cs).drop 4)
      else if isCloseTag (c :: cs) then stripHeadingTagsAux fuel ((c :: cs).drop 5)
      else c :: stripHeadingTagsAux fuel cs

def stripHeadingTags (s : String) : String :=
  String.mk (stripHeadingTagsAux s.data.length s.data)

/-- `Array.prototype.join('\n')`. -/
def joinNl : List String → String
  | [] => ""
  | [u] => u
  | u :: rest => u ++ "\n" ++ joinNl rest

/-! ### The gateway boundary

`fetch` to `POST /api/gemini-proxy` is the sole network boundary.  A
`Gateway` maps the posted request to either a thrown network error
(`Except.error`) or an HTTP response whose body is `none` when the body text
is not valid JSON (so that `response.json()` rejects). -/

/-- The two JSON response-schema constants of the service
    (`blogDetailsSchema`, `faqSchema`). -/
inductive SchemaId where
  | blogDetails : SchemaId
  | faq : SchemaId
deriving DecidableEq

/-- The `config` object posted to the proxy; only the fields the service
    ever sets are modelled. -/
structure GenConfig where
  tools : Bool
  responseMimeType : Option String
  responseSchema : Option SchemaId
  isImageGeneration : Bool
  numberOfImages : Option Nat
  aspectRatio : Option String
  outputMimeType : Option String
deriving DecidableEq

/-- An empty `config` (the default parameter `config: any = {}`). -/
def cfgNone : GenConfig := ⟨false, none, none, false, none, none, none⟩

/-- `{ tools: [{googleSearch: {}}] }` used by `findTrendingTopic`. -/
def cfgTools : GenConfig := ⟨true, none, none, false, none, none, none⟩

/-- The config of `generateBlogDetails`. -/
def cfgDetails : GenConfig := ⟨false, some "application/json", some .blogDetails, false, none, none, none⟩

/-- The config of `generateFaqSection`. -/
def cfgFaq : GenConfig := ⟨false, some "application/json", some .faq, false, none, none, none⟩

/-- The image-generation options passed by both image stages. -/
def cfgImage : GenConfig := ⟨false, none, none, false, some 1, some "16:9", some "image/jpeg"⟩

/-- `{...config, isImageGeneration: true}` as spread by
    `callGeminiImageProxy`. -/
def withImageFlag (c : GenConfig) : GenConfig :=
  ⟨c.tools, c.responseMimeType, c.responseSchema, true, c.numberOfImages, c.aspectRatio, c.outputMimeType⟩

/-- The JSON body posted to `/api/gemini-proxy`. -/
structure GenRequest where
  model : String
  contents : String
  config : GenConfig
deriving DecidableEq

/-- An HTTP response as observed by the helpers: `respOk` is `response.ok`,
    `status`/`statusText` the HTTP status, and `body` the parsed JSON body
    (`none` models a body on which `response.json()` rejects). -/
structure HttpResponse where
  respOk : Bool
  status : Nat
  statusText : String
  body : Option JsonVal

/-- The environment: what `fetch` returns for each posted request.
    `Except.error` models a rejected `fetch` (network failure). -/
def Gateway : Type := GenRequest → Except String HttpResponse

/-- Observable events of one run: progress messages emitted through the
    caller-supplied callback, and outgoing gateway calls. -/
inductive Ev where
  | progress : String → Ev
  | call : GenRequest → Ev
deriving DecidableEq

/-- The effect monad of the embedding: a result or a thrown error message,
    together with the list of events emitted so far. -/
def StM (α : Type) : Type := Except String α × List Ev

instance : Monad StM where
  pure a := (.ok a, [])
  bind x f :=
    match x with
    | (.ok a, t) =>
        match f a with
        | (r, t2) => (r, t ++ t2)
    | (.error e, t) => (.error e, t)

/-- `throw` in `StM`. -/
def stThrow {α : Type} (e : String) : StM α := (.error e, [])

/-- Emit one progress message (`updateProgress(msg)`). -/
def stProgress (msg : String) : StM Unit := (.ok (), [.progress msg])

/-- Lift a pure `Except` computation. -/
def stLift {α : Type} (x : Except String α) : StM α := (x, [])

/-- The result component of a computation. -/
def res {α : Type} (x : StM α) : Except String α := x.1

/-- The event-trace component of a computation. -/
def trc {α : Type} (x : StM α) : List Ev := x.2

/-- Build an `StM` computation from its components; keeps the type
    `StM` syntactic so that the `Monad` instance is found. -/
def stmk {α : Type} (r : Except String α) (t : List Ev) : StM α := (r, t)

/-! ### Data model -/

/-- Modelled from the spec: the `Client` record (`types.ts` is not among the
    sources); carries exactly the fields the pipeline reads (§3
    `ClientProfile`: `id`, `industry`, `uniqueValueProp`, `brandVoice`,
    `contentStrategy`, `sitemapUrls`). -/
structure Client where
  id : String
  industry : String
  uniqueValueProp : String
  brandVoice : String
  contentStrategy : String
  sitemapUrls : List String

/-- Modelled from the spec: the `BlogPost` record (`types.ts` is not among
    the sources); its fields hold the run-time values the orchestrator
    assembles (§3 `BlogPost`).  `title`, `angle`, `keywords` and
    `featuredImageBase64` are dynamic values (possibly `undefined`). -/
structure BlogPost where
  title : Option JsonVal
  angle : Option JsonVal
  keywords : Option JsonVal
  outline : String
  content : String
  featuredImageBase64 : Option JsonVal

/-! ### The proxy helpers -/

/-- The error message thrown on a non-ok response: the failure body is read
    as JSON, defaulting to `{message: 'Unknown error'}` when unparseable,
    and its `message` member is interpolated. -/
def proxyFailMsg (resp : HttpResponse) : String :=
  let errorData := resp.body.getD (.jobj [("message", .jstr "Unknown error")])
  "Backend proxy error: " ++ toString resp.status ++ " " ++ resp.statusText ++
    " - " ++ jsShow (jget errorData "message")

/-- `callGeminiProxy`: posts `{model, contents, config}`, throws on a
    non-ok status or rejected fetch, returns the parsed JSON body otherwise;
    every error is re-wrapped by the surrounding try/catch. -/
def callGeminiProxy (gw : Gateway) (model contents : String) (config : GenConfig) :
    StM JsonVal :=
  let req : GenRequest := ⟨model, contents, config⟩
  let inner : Except String JsonVal :=
    match gw req with
    | .error m => .error m
    | .ok resp =>
        if resp.respOk then
          match resp.body with
          | some b => .ok b
          | none => .error "Unexpected end of JSON input"
        else .error (proxyFailMsg resp)
  (match inner with
   | .ok b => .ok b
   | .error m => .error ("Failed to call Gemini API via proxy: " ++ m),
   [.call req])

/-- `callGeminiImageProxy`: same flow with `isImageGeneration: true`
    spliced into the config; on success returns
    `result.imageBytes || result.text`. -/
def callGeminiImageProxy (gw : Gateway) (model prompt : String) (config : GenConfig) :
    StM (Option JsonVal) :=
  let req : GenRequest := ⟨model, prompt, withImageFlag config⟩
  let inner : Except String (Option JsonVal) :=
    match gw req with
    | .error m => .error m
    | .ok resp =>
        if resp.respOk then
          match resp.body with
          | some b => .ok (jsOr (jget b "imageBytes") (jget b "text"))
          | none => .error "Unexpected end of JSON input"
        else .error (proxyFailMsg resp)
  (match inner with
   | .ok v => .ok v
   | .error m => .error ("Failed to call Gemini Image API via proxy: " ++ m),
   [.call req])

/-! ### Stage functions -/

def topicPrompt (client : Client) : String :=
  "\n    // Client ID: " ++ client.id ++
  "\n    Using Google Search, find one current and highly relevant trending topic, news story, or popular question related to the '" ++
  client.industry ++ "' industry. Provide only the topic name or headline.\n  "

/-- `response.text.trim()`: accessing `.trim` on a missing or non-string
    `text` member throws a `TypeError`. -/
def textOfBody (body : JsonVal) : Except String String :=
  match jget body "text" with
  | some (.jstr s) => .ok (strTrim s)
  | _ => .error "TypeError: response.text.trim is not a function"

/-- `response.text` destined for `JSON.parse` or further processing; the
    `TypeError` of the subsequent `.trim()` call is raised here when the
    member is missing or not a string. -/
def rawTextOfBody (body : JsonVal) : Except String String :=
  match jget body "text" with
  | some (.jstr s) => .ok s
  | _ => .error "TypeError: response.text.trim is not a function"

def findTrendingTopic (gw : Gateway) (client : Client) : StM String := do
  let body ← callGeminiProxy gw "gemini-2.5-flash" (topicPrompt client) cfgTools
  stLift (textOfBody body)

def detailsPrompt (client : Client) (topic : String) : String :=
  "\n    // Client ID: " ++ client.id ++
  "\n    You are an expert content strategist for a company in the '" ++ client.industry ++
  "' industry.\n    Company's unique value proposition: '" ++ client.uniqueValueProp ++
  "'\n    Company's brand voice: '" ++ client.brandVoice ++
  "'\n    Company's content strategy: '" ++ client.contentStrategy ++
  "'\n    We want to write a blog post about the following topic: '" ++ topic ++
  "'\n\n    Please generate a compelling, SEO-friendly blog post title, a unique angle for the article, and a list of 5-7 relevant SEO keywords.\n  "

/-- `generateBlogDetails`: requests a schema-constrained response and
    returns `JSON.parse(response.text)` — the parsed value is returned as
    is, with no check that `title`, `angle` or `keywords` are present. -/
def generateBlogDetails (gw : Gateway) (client : Client) (topic : String) : StM JsonVal := do
  let body ← callGeminiProxy gw "gemini-2.5-flash" (detailsPrompt client topic) cfgDetails
  stLift (jsonParse (jsShow (jget body "text")))

def outlinePrompt (title angle : Option JsonVal) : String :=
  "\n    Based on the following title and angle, create a detailed blog post outline.\n    Title: '" ++
  jsShow title ++ "'\n    Angle: '" ++ jsShow angle ++
  "'\n\n    The outline should have a clear hierarchical structure with H2 and H3 headings. Include an introduction and a conclusion. The blog title itself will be the H1, so do not include it in the outline. Output only the outline.\n  "

def generateOutline (gw : Gateway) (title angle : Option JsonVal) : StM String := do
  let body ← callGeminiProxy gw "gemini-2.5-flash" (outlinePrompt title angle) cfgNone
  stLift (textOfBody body)

/-- The sitemap block of the content prompt:
    `client.sitemapUrls && client.sitemapUrls.length > 0 ?
     client.sitemapUrls.join('\n') : 'No sitemap URLs available.'`. -/
def sitemapBlock (client : Client) : String :=
  if client.sitemapUrls.isEmpty then "No sitemap URLs available."
  else joinNl client.sitemapUrls

/-- Everything of the content prompt up to the URL list. -/
def contentPromptHead (title : Option JsonVal) (outline : String) (client : Client) : String :=
  "\n    // Client ID: " ++ client.id ++
  "\n    Write a complete blog post in HTML format based on the provided title and outline.\n    Title (H1): '" ++
  jsShow title ++ "'\n    Outline:\n    " ++ outline ++
  "\n\n    Follow these instructions:\n    - Adhere to the client's content strategy: '" ++
  client.contentStrategy ++
  "'.\n    - Elaborate on each point in the outline. Use <p> tags for paragraphs.\n    - Use <h2> and <h3> tags exactly as specified in the outline.\n    - Do NOT include the H1 title in the generated content; it will be added separately.\n    - Write in the following brand voice: '" ++
  client.brandVoice ++
  "'.\n    - Naturally incorporate the company's unique value proposition where relevant: '" ++
  client.uniqueValueProp ++
  "'.\n    - Ensure the tone is confident and expert. Avoid apologetic language or AI self-references.\n    - The content must be original and engaging.\n    - **IMPORTANT:** Include external HTML hyperlinks to relevant, high-authority referencing material where appropriate.\n    - **CRITICAL:** Include between 4 and 8 internal HTML hyperlinks to relevant pages/blogs on the client's website. These links MUST be contextually relevant and naturally integrated into the content. Select these links from the following list of URLs:\n      "

def contentPrompt (title : Option JsonVal) (outline : String) (client : Client) : String :=
  contentPromptHead title outline client ++ sitemapBlock client ++ "\n  "

def generateInBodyImage (gw : Gateway) (prompt : String) : StM (Option JsonVal) :=
  callGeminiImageProxy gw "imagen-3.0-generate-002"
    (prompt ++ ". A cinematic, photorealistic, high-quality image, no text or words on the image.")
    cfgImage

def generateFeaturedImage (gw : Gateway) (title angle : Option JsonVal) : StM (Option JsonVal) :=
  callGeminiImageProxy gw "imagen-3.0-generate-002"
    (jsShow title ++ ". " ++ jsShow angle ++ ". A cinematic, photorealistic, high-quality image, no text or words on the image.")
    cfgImage

/-- The `<img>` element spliced after a heading. -/
def imageTagFor (headingText : String) (img : Option JsonVal) : String :=
  "<img src=\"data:image/jpeg;base64," ++ jsShow img ++ "\" alt=\"" ++ headingText ++ "\" />"

/-- Outcome of the inline-image loop of `generateFullContent`: the mutated
    content, the final `imageCount`, and — bookkeeping not present in the
    source, which only logs failures — how many headings were attempted and
    how many of those attempts threw. -/
structure LoopOut where
  content : String
  count : Nat
  attempted : Nat
  failed : Nat
  events : List Ev

/-- The inline-image loop: for each matched heading, stop once
    `imageCount >= 2`; otherwise attempt an image and splice it after the
    first occurrence of the heading, catching (and merely counting) any
    thrown error. -/
def insertImages (gw : Gateway) : List String → String → Nat → LoopOut
  | [], content, count => ⟨content, count, 0, 0, []⟩
  | h :: rest, content, count =>
      if count ≥ 2 then ⟨content, count, 0, 0, []⟩
      else
        let headingText := stripHeadingTags h
        match generateInBodyImage gw headingText with
        | (.ok img, ev) =>
            let content' := replaceFirst content h (h ++ "\n" ++ imageTagFor headingText img)
            let r := insertImages gw rest content' (count + 1)
            ⟨r.content, r.count, r.attempted + 1, r.failed, ev ++ r.events⟩
        | (.error _, ev) =>
            let r := insertImages gw rest content count
            ⟨r.content, r.count, r.attempted + 1, r.failed + 1, ev ++ r.events⟩

def faqPrompt (title : Option JsonVal) (content : String) : String :=
  "\n    Based on the following blog post title and content, generate a list of at least 3 frequently asked questions (FAQs) with their answers.\n\n    Title: " ++
  jsShow title ++ "\n\n    Content:\n    " ++ strTake content 2000 ++
  "...\n\n    Return the FAQs in a JSON object that conforms to the provided schema.\n  "

/-- One `mainEntity` element of the FAQPage structured-data object;
    `JSON.stringify` drops members whose value is `undefined`. -/
def faqEntity (faq : JsonVal) : JsonVal :=
  jobjOfOpt [("@type", some (.jstr "Question")),
             ("name", jget faq "question"),
             ("acceptedAnswer", some (jobjOfOpt
               [("@type", some (.jstr "Answer")),
                ("text", jget faq "answer")]))]

/-- The `faqPageSchema` object built from the parsed FAQ list. -/
def faqPageSchemaOf (faqs : List JsonVal) : JsonVal :=
  .jobj [("@context", .jstr "https://schema.org"),
         ("@type", .jstr "FAQPage"),
         ("mainEntity", .jarr (faqs.map faqEntity))]

def faqHeaderHtml : String :=
  "\n    <div class=\"faq-section\">\n      <h2>Frequently Asked Questions</h2>\n  "

def faqItemHtml (faq : JsonVal) : String :=
  "\n      <h3>" ++ jsShow (jget faq "question") ++ "</h3>\n      <p>" ++
  jsShow (jget faq "answer") ++ "</p>\n    "

def faqItemsHtml (faqs : List JsonVal) : String :=
  String.join (faqs.map faqItemHtml)

def faqFooterHtml (faqs : List JsonVal) : String :=
  "\n    </div>\n    <script type=\"application/ld+json\">\n      " ++
  jsonStringify (faqPageSchemaOf faqs) ++ "\n    </script>\n  "

/-- The full HTML string returned by `generateFaqSection` for a parsed FAQ
    list: heading section, one `<h3>`/`<p>` pair per entry, and a single
    `ld+json` script block encoding the same list. -/
def faqSectionHtml (faqs : List JsonVal) : String :=
  faqHeaderHtml ++ faqItemsHtml faqs ++ faqFooterHtml faqs

/-- `const { faqs } = JSON.parse(response.text)` followed by `faqs.map`:
    destructuring `null` throws, and a missing or non-array `faqs` member
    makes the subsequent `.map` call throw. -/
def faqsOfParsed (parsed : JsonVal) : Except String (List JsonVal) :=
  match parsed with
  | .jnull => .error "TypeError: cannot read properties of null"
  | _ =>
    match jget parsed "faqs" with
    | some (.jarr faqs) => .ok faqs
    | _ => .error "TypeError: faqs.map is not a function"

/-- `generateFaqSection`: parses the schema-constrained response as JSON,
    destructures `faqs`, and renders the FAQ block; a parse failure or a
    non-array `faqs` member throws (no local catch). -/
def generateFaqSection (gw : Gateway) (title : Option JsonVal) (content : String) :
    StM String := do
  let body ← callGeminiProxy gw "gemini-2.5-flash" (faqPrompt title content) cfgFaq
  let parsed ← stLift (jsonParse (jsShow (jget body "text")))
  let faqs ← stLift (faqsOfParsed parsed)
  pure (faqSectionHtml faqs)

/-- `generateFullContent`: request the body prose, strip a code-fence
    wrapper, splice at most two inline images after matched H2/H3 headings
    (failures caught), then append the FAQ section. -/
def generateFullContent (gw : Gateway) (title : Option JsonVal) (outline : String)
    (client : Client) : StM String := do
  let body ← callGeminiProxy gw "gemini-2.5-flash" (contentPrompt title outline client) cfgNone
  let raw ← stLift (rawTextOfBody body)
  let content0 := strTrim (stripFences (strTrim raw))
  let r := insertImages gw (findHeadings content0) content0 0
  let _ ← stmk (.ok ()) r.events
  let faq ← generateFaqSection gw title r.content
  pure (r.content ++ faq)

/-- `const { title, angle, keywords } = ...`: destructuring `null` throws a
    `TypeError`; any other value (object or primitive) destructures, with
    missing members becoming `undefined`. -/
def destructureOk (md : JsonVal) : Except String Unit :=
  match md with
  | .jnull => .error "TypeError: cannot destructure null"
  | _ => .ok ()

/-- `generateFullBlog`: the orchestrator — fixed linear stage order with a
    progress message emitted before each stage, assembling the final
    `BlogPost` from the stage outputs. -/
def generateFullBlog (gw : Gateway) (client : Client) : StM BlogPost := do
  stProgress "Finding trending topic..."
  let topic ← findTrendingTopic gw client
  stProgress ("Generating title, angle, and keywords for: \"" ++ topic ++ "\"")
  let md ← generateBlogDetails gw client topic
  let _ ← stLift (destructureOk md)
  let title := jget md "title"
  let angle := jget md "angle"
  let keywords := jget md "keywords"
  stProgress "Creating blog post outline..."
  let outline ← generateOutline gw title angle
  stProgress "Writing full blog post content..."
  let content ← generateFullContent gw title outline client
  stProgress "Generating featured image..."
  let featuredImageBase64 ← generateFeaturedImage gw title angle
  stProgress "Finalizing post..."
  pure ⟨title, angle, keywords, outline, content, featuredImageBase64⟩

/-! ### Deterministic stub gateways and clients used by concrete runs -/

/-- A 200 response with the given JSON body. -/
def okResp (b : JsonVal) : Except String HttpResponse := .ok ⟨true, 200, "OK", some b⟩

/-- A `{text: s}` body as produced by the backend for text generation. -/
def mkTextBody (s : String) : JsonVal := .jobj [("text", .jstr s)]

/-- A `{imageBytes: s, success: true}` body as produced by the backend for
    image generation. -/
def mkImageBody (s : String) : JsonVal := .jobj [("imageBytes", .jstr s), ("success", .jbool true)]

/-- The metadata JSON text used by the round-trip stub. -/
def mdJsonRT : String :=
  "\x7b\"title\":\"T\",\"angle\":\"A\",\"keywords\":[\"a\",\"b\",\"c\",\"d\",\"e\"]\x7d"

/-- A three-entry FAQ JSON text. -/
def faqJson3 : String :=
  "\x7b\"faqs\":[\x7b\"question\":\"q1\",\"answer\":\"a1\"\x7d,\x7b\"question\":\"q2\",\"answer\":\"a2\"\x7d,\x7b\"question\":\"q3\",\"answer\":\"a3\"\x7d]\x7d"

/-- A small client profile used by the concrete runs. -/
def clientA : Client := ⟨"c1", "retail", "uvp", "bv", "cs", ["https://x.test/a"]⟩

/-- A stub gateway distinguishing the pipeline stages by their request
    shape, with responses fixed to the round-trip scenario of the spec:
    topic "AI in retail", metadata title "T" / angle "A" / five keywords,
    outline and content with one heading, three FAQ entries, featured-image
    bytes "IMG" (the featured prompt starts with "T. A."). -/
def gwRoundTrip : Gateway := fun req =>
  if req.config.isImageGeneration then
    if strStartsWith req.contents "T. A." then okResp (mkImageBody "IMG")
    else okResp (mkImageBody "B64")
  else if req.config.tools then okResp (mkTextBody "AI in retail")
  else if req.config.responseSchema = some .blogDetails then okResp (mkTextBody mdJsonRT)
  else if req.config.responseSchema = some .faq then okResp (mkTextBody faqJson3)
  else if strStartsWith req.contents "\n    Based on the following title" then
    okResp (mkTextBody "<h2>Intro</h2>...")
  else okResp (mkTextBody "<h2>Intro</h2><p>...</p>")

/-- Like `gwRoundTrip` but the FAQ response is not valid JSON. -/
def gwFaqBad : Gateway := fun req =>
  if req.config.responseSchema = some .faq then okResp (mkTextBody "not json")
  else gwRoundTrip req

/-- Like `gwRoundTrip` but the content body contains an H1 heading. -/
def gwH1 : Gateway := fun req =>
  if req.config.isImageGeneration ∨ req.config.tools ∨ req.config.responseSchema.isSome ∨
      strStartsWith req.contents "\n    Based on the following title" then gwRoundTrip req
  else okResp (mkTextBody "<h1>T1</h1><p>x</p>")

/-- Like `gwRoundTrip` but the content body links to a URL that is not in
    the client sitemap list. -/
def gwLink : Gateway := fun req =>
  if req.config.isImageGeneration ∨ req.config.tools ∨ req.config.responseSchema.isSome ∨
      strStartsWith req.contents "\n    Based on the following title" then gwRoundTrip req
  else okResp (mkTextBody "<p><a href=\"https://x.test/evil\">z</a></p>")

/-- Like `gwRoundTrip` but every image-generation request suffers a network
    failure, and the content body has three headings. -/
def gwImgFail : Gateway := fun req =>
  if req.config.isImageGeneration then .error "fetch failed"
  else if req.config.tools ∨ req.config.responseSchema.isSome ∨
      strStartsWith req.contents "\n    Based on the following title" then gwRoundTrip req
  else okResp (mkTextBody "<h2>A</h2><p>x</p><h3>B</h3><p>y</p><h2>C</h2>")

/-- A gateway whose every text response is the JSON text of an empty
    object. -/
def gwDetailsEmpty : Gateway := fun _ => okResp (mkTextBody "\x7b\x7d")

/-- A gateway whose every text response is not valid JSON. -/
def gwDetailsBad : Gateway := fun _ => okResp (mkTextBody "not json")

/-- The non-ok response of the failure scenario: HTTP 500 with the backend
    failure body `{error, details}` (the shape `server.js` actually sends). -/
def resp500 : HttpResponse :=
  ⟨false, 500, "Internal Server Error",
   some (.jobj [("error", .jstr "Proxy backend failure"), ("details", .jstr "quota exceeded")])⟩

/-- A gateway answering every request with `resp500`. -/
def gw500 : Gateway := fun _ => .ok resp500

/-- A gateway answering every request with HTTP 200 but a body that is not
    valid JSON (`response.json()` rejects). -/
def gwBadBody : Gateway := fun _ => .ok ⟨true, 200, "OK", none⟩

/-- The parsed metadata object of the round-trip stub. -/
def mdRT : JsonVal :=
  .jobj [("title", .jstr "T"), ("angle", .jstr "A"),
         ("keywords", .jarr [.jstr "a", .jstr "b", .jstr "c", .jstr "d", .jstr "e"])]

/-- The parsed FAQ list of the round-trip stub. -/
def faqs3 : List JsonVal :=
  [.jobj [("question", .jstr "q1"), ("answer", .jstr "a1")],
   .jobj [("question", .jstr "q2"), ("answer", .jstr "a2")],
   .jobj [("question", .jstr "q3"), ("answer", .jstr "a3")]]

/-- The inline-image loop of `generateFullContent`, as applied to the
    fence-stripped gateway content `raw`. -/
def contentLoop (gw : Gateway) (raw : String) : LoopOut :=
  insertImages gw (findHeadings (strTrim (stripFences (strTrim raw))))
    (strTrim (stripFences (strTrim raw))) 0

set_option maxRecDepth 10000

/-! ### Basic facts about the embedding -/

example : jsonParse "\x7b\"a\":[1,\"x\",true],\"b\":null\x7d" =
    .ok (.jobj [("a", .jarr [.jnum "1", .jstr "x", .jbool true]), ("b", .jnull)]) := rfl

example : (jsonParse "not json").isOk = false := by decide

example : jsonParse "\x7b\x7d" = .ok (.jobj []) := rfl

example : findHeadings "<p>a</p><h2>One</h2><p>b</p><h3>Two</h3>" = ["<h2>One</h2>", "<h3>Two</h3>"] := rfl

example : findHeadings "<h2>no close" = [] := rfl

example : findHeadings "<h2>broken\n</h2><h3>ok</h3>" = ["<h3>ok</h3>"] := rfl

example : stripHeadingTags "<h2>One</h2>" = "One" := rfl

example : replaceFirst "a<h2>X</h2>b<h2>X</h2>" "<h2>X</h2>" "<h2>X</h2>I" = "a<h2>X</h2>Ib<h2>X</h2>" := rfl

example : stripFences "```html<p>x</p>```" = "<p>x</p>" := by decide

example : strTrim "  a b\n" = "a b" := by decide

theorem StM_bind_eq {α β : Type} (x : StM α) (f : α → StM β) :
    x >>= f = match x.1 with
      | .ok a => ((f a).1, x.2 ++ (f a).2)
      | .error e => (.error e, x.2) := by
  obtain ⟨r, t⟩ := x
  cases r <;> rfl

theorem StM_bind_ok {α β : Type} (a : α) (t : List Ev) (f : α → StM β) :
    (stmk (.ok a) t >>= f) = ((f a).1, t ++ (f a).2) := by
  rw [StM_bind_eq]
  rfl

theorem StM_bind_error {α β : Type} (e : String) (t : List Ev) (f : α → StM β) :
    (stmk (.error e) t >>= f) = (.error e, t) := by
  rw [StM_bind_eq]
  rfl

/-! ### Lemmas about the effect monad, the stages, and the inline-image loop -/

theorem res_bind {α β : Type} (x : StM α) (f : α → StM β) :
    res (x >>= f) = match res x with
      | .ok a => res (f a)
      | .error e => .error e := by
  show (x >>= f).1 = _
  rw [StM_bind_eq]
  cases h : x.1 <;> simp [res, h]

theorem trc_bind {α β : Type} (x : StM α) (f : α → StM β) :
    trc (x >>= f) = trc x ++ (match res x with
      | .ok a => trc (f a)
      | .error _ => []) := by
  show (x >>= f).2 = _
  rw [StM_bind_eq]
  cases h : x.1 <;> simp [res, trc, h]

theorem res_stLift {α : Type} (x : Except String α) : res (stLift x) = x := rfl

theorem trc_stLift {α : Type} (x : Except String α) : trc (stLift x) = [] := rfl

theorem res_pure {α : Type} (a : α) : res (pure a : StM α) = .ok a := rfl

theorem trc_pure {α : Type} (a : α) : trc (pure a : StM α) = [] := rfl

theorem res_stProgress (m : String) : res (stProgress m) = .ok () := rfl

theorem trc_stProgress (m : String) : trc (stProgress m) = [.progress m] := rfl

theorem res_stmk {α : Type} (r : Except String α) (t : List Ev) : res (stmk r t) = r := rfl

theorem trc_stmk {α : Type} (r : Except String α) (t : List Ev) : trc (stmk r t) = t := rfl

theorem trc_callGeminiProxy (gw : Gateway) (m c : String) (cfg : GenConfig) :
    trc (callGeminiProxy gw m c cfg) = [.call ⟨m, c, cfg⟩] := rfl

theorem trc_callGeminiImageProxy (gw : Gateway) (m p : String) (cfg : GenConfig) :
    trc (callGeminiImageProxy gw m p cfg) = [.call ⟨m, p, withImageFlag cfg⟩] := rfl

theorem trc_findTrendingTopic (gw : Gateway) (client : Client) :
    trc (findTrendingTopic gw client) =
      [.call ⟨"gemini-2.5-flash", topicPrompt client, cfgTools⟩] := by
  unfold findTrendingTopic
  rw [trc_bind]
  cases h : res (callGeminiProxy gw "gemini-2.5-flash" (topicPrompt client) cfgTools) <;>
    simp [trc_callGeminiProxy, trc_stLift]

theorem trc_generateBlogDetails (gw : Gateway) (client : Client) (topic : String) :
    trc (generateBlogDetails gw client topic) =
      [.call ⟨"gemini-2.5-flash", detailsPrompt client topic, cfgDetails⟩] := by
  unfold generateBlogDetails
  rw [trc_bind]
  cases h : res (callGeminiProxy gw "gemini-2.5-flash" (detailsPrompt client topic) cfgDetails) <;>
    simp [trc_callGeminiProxy, trc_stLift]

theorem trc_generateOutline (gw : Gateway) (title angle : Option JsonVal) :
    trc (generateOutline gw title angle) =
      [.call ⟨"gemini-2.5-flash", outlinePrompt title angle, cfgNone⟩] := by
  unfold generateOutline
  rw [trc_bind]
  cases h : res (callGeminiProxy gw "gemini-2.5-flash" (outlinePrompt title angle) cfgNone) <;>
    simp [trc_callGeminiProxy, trc_stLift]

theorem trc_generateFaqSection (gw : Gateway) (title : Option JsonVal) (content : String) :
    trc (generateFaqSection gw title content) =
      [.call ⟨"gemini-2.5-flash", faqPrompt title content, cfgFaq⟩] := by
  unfold generateFaqSection
  simp only [trc_bind, res_bind, res_stLift, trc_stLift, trc_pure, trc_callGeminiProxy]
  cases h : res (callGeminiProxy gw "gemini-2.5-flash" (faqPrompt title content) cfgFaq) with
  | error e => simp
  | ok body =>
      cases hp : jsonParse (jsShow (jget body "text")) with
      | error e => simp [hp]
      | ok parsed => cases hf : faqsOfParsed parsed <;> simp [hp, hf]

theorem res_callGeminiProxy_ok (gw : Gateway) (m c : String) (cfg : GenConfig)
    (resp : HttpResponse) (b : JsonVal)
    (hgw : gw ⟨m, c, cfg⟩ = .ok resp) (hok : resp.respOk = true) (hb : resp.body = some b) :
    res (callGeminiProxy gw m c cfg) = .ok b := by
  unfold callGeminiProxy
  simp [res, hgw, hok, hb]

theorem generateFaqSection_ok (gw : Gateway) (title : Option JsonVal) (content : String)
    (body parsed : JsonVal) (faqs : List JsonVal)
    (h1 : res (callGeminiProxy gw "gemini-2.5-flash" (faqPrompt title content) cfgFaq) = .ok body)
    (h2 : jsonParse (jsShow (jget body "text")) = .ok parsed)
    (h3 : faqsOfParsed parsed = .ok faqs) :
    res (generateFaqSection gw title content) = .ok (faqSectionHtml faqs) := by
  unfold generateFaqSection
  simp only [res_bind, res_stLift, res_pure, h1, h2, h3]

theorem generateFaqSection_err (gw : Gateway) (title : Option JsonVal) (content : String)
    (body : JsonVal) (e : String)
    (h1 : res (callGeminiProxy gw "gemini-2.5-flash" (faqPrompt title content) cfgFaq) = .ok body)
    (h2 : jsonParse (jsShow (jget body "text")) = .error e) :
    res (generateFaqSection gw title content) = .error e := by
  unfold generateFaqSection
  simp only [res_bind, res_stLift, res_pure, h1, h2]

theorem generateFullContent_ok (gw : Gateway) (title : Option JsonVal) (outline : String)
    (client : Client) (body : JsonVal) (raw faqHtml : String)
    (h1 : res (callGeminiProxy gw "gemini-2.5-flash" (contentPrompt title outline client) cfgNone)
        = .ok body)
    (h2 : rawTextOfBody body = .ok raw)
    (h3 : res (generateFaqSection gw title
        (insertImages gw (findHeadings (strTrim (stripFences (strTrim raw))))
          (strTrim (stripFences (strTrim raw))) 0).content) = .ok faqHtml) :
    res (generateFullContent gw title outline client) =
      .ok ((insertImages gw (findHeadings (strTrim (stripFences (strTrim raw))))
          (strTrim (stripFences (strTrim raw))) 0).content ++ faqHtml) := by
  unfold generateFullContent
  simp only [res_bind, res_stLift, res_stmk, res_pure, h1, h2, h3]

theorem generateFullContent_err_faq (gw : Gateway) (title : Option JsonVal) (outline : String)
    (client : Client) (body : JsonVal) (raw e : String)
    (h1 : res (callGeminiProxy gw "gemini-2.5-flash" (contentPrompt title outline client) cfgNone)
        = .ok body)
    (h2 : rawTextOfBody body = .ok raw)
    (h3 : res (generateFaqSection gw title
        (insertImages gw (findHeadings (strTrim (stripFences (strTrim raw))))
          (strTrim (stripFences (strTrim raw))) 0).content) = .error e) :
    res (generateFullContent gw title outline client) = .error e := by
  unfold generateFullContent
  simp only [res_bind, res_stLift, res_stmk, res_pure, h1, h2, h3]

theorem generateFullBlog_ok (gw : Gateway) (client : Client) (topic : String) (md : JsonVal)
    (outline content : String) (featured : Option JsonVal)
    (h1 : res (findTrendingTopic gw client) = .ok topic)
    (h2 : res (generateBlogDetails gw client topic) = .ok md)
    (h3 : destructureOk md = .ok ())
    (h4 : res (generateOutline gw (jget md "title") (jget md "angle")) = .ok outline)
    (h5 : res (generateFullContent gw (jget md "title") outline client) = .ok content)
    (h6 : res (generateFeaturedImage gw (jget md "title") (jget md "angle")) = .ok featured) :
    res (generateFullBlog gw client) =
      .ok ⟨jget md "title", jget md "angle", jget md "keywords", outline, content, featured⟩ := by
  unfold generateFullBlog
  simp only [res_bind, res_stProgress, res_stLift, res_pure, h1, h2, h3, h4, h5, h6]

theorem generateFullBlog_err_content (gw : Gateway) (client : Client) (topic : String)
    (md : JsonVal) (outline e : String)
    (h1 : res (findTrendingTopic gw client) = .ok topic)
    (h2 : res (generateBlogDetails gw client topic) = .ok md)
    (h3 : destructureOk md = .ok ())
    (h4 : res (generateOutline gw (jget md "title") (jget md "angle")) = .ok outline)
    (h5 : res (generateFullContent gw (jget md "title") outline client) = .error e) :
    res (generateFullBlog gw client) = .error e := by
  unfold generateFullBlog
  simp only [res_bind, res_stProgress, res_stLift, res_pure, h1, h2, h3, h4, h5]

theorem insertImages_count_le (gw : Gateway) (hs : List String) (c : String) (n : Nat)
    (hn : n ≤ 2) : (insertImages gw hs c n).count ≤ 2 := by
  induction hs generalizing c n with
  | nil => simpa [insertImages]
  | cons h rest ih =>
      by_cases h2 : n ≥ 2
      · simp [insertImages, h2]
        omega
      · rcases hr : generateInBodyImage gw (stripHeadingTags h) with ⟨r, ev⟩
        cases r with
        | ok img =>
            simp [insertImages, h2, hr]
            exact ih _ _ (by omega)
        | error e =>
            simp [insertImages, h2, hr]
            exact ih _ _ hn

theorem insertImages_attempted_le (gw : Gateway) (hs : List String) (c : String) (n : Nat) :
    (insertImages gw hs c n).attempted ≤ hs.length := by
  induction hs generalizing c n with
  | nil => simp [insertImages]
  | cons h rest ih =>
      by_cases h2 : n ≥ 2
      · simp [insertImages, h2]
      · rcases hr : generateInBodyImage gw (stripHeadingTags h) with ⟨r, ev⟩
        cases r with
        | ok img =>
            simp only [insertImages, h2, hr, if_false, List.length_cons]
            have := ih (replaceFirst c h (h ++ "\n" ++ imageTagFor (stripHeadingTags h) img)) (n + 1)
            omega
        | error e =>
            simp only [insertImages, h2, hr, if_false, List.length_cons]
            have := ih c n
            omega

theorem insertImages_balance (gw : Gateway) (hs : List String) (c : String) (n : Nat) :
    (insertImages gw hs c n).count + (insertImages gw hs c n).failed =
      n + (insertImages gw hs c n).attempted := by
  induction hs generalizing c n with
  | nil => simp [insertImages]
  | cons h rest ih =>
      by_cases h2 : n ≥ 2
      · simp [insertImages, h2]
      · rcases hr : generateInBodyImage gw (stripHeadingTags h) with ⟨r, ev⟩
        cases r with
        | ok img =>
            simp only [insertImages, h2, hr, if_false]
            have := ih (replaceFirst c h (h ++ "\n" ++ imageTagFor (stripHeadingTags h) img)) (n + 1)
            omega
        | error e =>
            simp only [insertImages, h2, hr, if_false]
            have := ih c n
            omega

theorem trc_generateInBodyImage (gw : Gateway) (p : String) :
    trc (generateInBodyImage gw p) = [.call ⟨"imagen-3.0-generate-002",
      p ++ ". A cinematic, photorealistic, high-quality image, no text or words on the image.",
      withImageFlag cfgImage⟩] := rfl

theorem trc_generateFeaturedImage (gw : Gateway) (title angle : Option JsonVal) :
    trc (generateFeaturedImage gw title angle) = [.call ⟨"imagen-3.0-generate-002",
      jsShow title ++ ". " ++ jsShow angle ++ ". A cinematic, photorealistic, high-quality image, no text or words on the image.",
      withImageFlag cfgImage⟩] := rfl

theorem insertImages_events_image (gw : Gateway) (hs : List String) (c : String) (n : Nat) :
    ∀ e ∈ (insertImages gw hs c n).events, ∃ rq, e = .call rq ∧ rq.config.isImageGeneration = true := by
  induction hs generalizing c n with
  | nil => simp [insertImages]
  | cons h rest ih =>
      by_cases h2 : n ≥ 2
      · simp [insertImages, h2]
      · rcases hr : generateInBodyImage gw (stripHeadingTags h) with ⟨r, ev⟩
        have hev : ev = [.call ⟨"imagen-3.0-generate-002",
            stripHeadingTags h ++ ". A cinematic, photorealistic, high-quality image, no text or words on the image.",
            withImageFlag cfgImage⟩] := by
          have hsnd := congrArg Prod.snd hr
          simp only [trc_generateInBodyImage gw (stripHeadingTags h)] at hsnd
          exact hsnd.symm
        cases r with
        | ok img =>
            simp only [insertImages, h2, hr, if_false]
            intro e he
            rcases List.mem_append.mp he with hmem | hmem
            · rw [hev] at hmem
              simp only [List.mem_singleton] at hmem
              exact ⟨_, hmem, rfl⟩
            · exact ih _ _ e hmem
        | error err =>
            simp only [insertImages, h2, hr, if_false]
            intro e he
            rcases List.mem_append.mp he with hmem | hmem
            · rw [hev] at hmem
              simp only [List.mem_singleton] at hmem
              exact ⟨_, hmem, rfl⟩
            · exact ih _ _ e hmem

theorem trc_generateFullContent (gw : Gateway) (title : Option JsonVal) (outline : String)
    (client : Client) (body : JsonVal) (raw : String)
    (h1 : res (callGeminiProxy gw "gemini-2.5-flash" (contentPrompt title outline client) cfgNone)
        = .ok body)
    (h2 : rawTextOfBody body = .ok raw) :
    trc (generateFullContent gw title outline client) =
      [.call ⟨"gemini-2.5-flash", contentPrompt title outline client, cfgNone⟩]
      ++ (insertImages gw (findHeadings (strTrim (stripFences (strTrim raw))))
            (strTrim (stripFences (strTrim raw))) 0).events
      ++ [.call ⟨"gemini-2.5-flash", faqPrompt title
            (insertImages gw (findHeadings (strTrim (stripFences (strTrim raw))))
              (strTrim (stripFences (strTrim raw))) 0).content, cfgFaq⟩] := by
  unfold generateFullContent
  simp only [trc_bind, res_bind, res_stLift, res_stmk, trc_stLift, trc_stmk, trc_pure,
    trc_callGeminiProxy, trc_generateFaqSection, h1, h2]
  cases hf : res (generateFaqSection gw title
      (insertImages gw (findHeadings (strTrim (stripFences (strTrim raw))))
        (strTrim (stripFences (strTrim raw))) 0).content) <;>
    simp

theorem trc_generateFullBlog (gw : Gateway) (client : Client) (topic : String) (md : JsonVal)
    (outline : String) (cbody : JsonVal) (raw : String)
    (h1 : res (findTrendingTopic gw client) = .ok topic)
    (h2 : res (generateBlogDetails gw client topic) = .ok md)
    (h3 : destructureOk md = .ok ())
    (h4 : res (generateOutline gw (jget md "title") (jget md "angle")) = .ok outline)
    (h5 : res (callGeminiProxy gw "gemini-2.5-flash"
        (contentPrompt (jget md "title") outline client) cfgNone) = .ok cbody)
    (h6 : rawTextOfBody cbody = .ok raw) :
    trc (generateFullBlog gw client) =
      [.progress "Finding trending topic...",
       .call ⟨"gemini-2.5-flash", topicPrompt client, cfgTools⟩,
       .progress ("Generating title, angle, and keywords for: \"" ++ topic ++ "\""),
       .call ⟨"gemini-2.5-flash", detailsPrompt client topic, cfgDetails⟩,
       .progress "Creating blog post outline...",
       .call ⟨"gemini-2.5-flash", outlinePrompt (jget md "title") (jget md "angle"), cfgNone⟩,
       .progress "Writing full blog post content...",
       .call ⟨"gemini-2.5-flash", contentPrompt (jget md "title") outline client, cfgNone⟩]
      ++ (insertImages gw (findHeadings (strTrim (stripFences (strTrim raw))))
            (strTrim (stripFences (strTrim raw))) 0).events
      ++ ([.call ⟨"gemini-2.5-flash", faqPrompt (jget md "title")
            (insertImages gw (findHeadings (strTrim (stripFences (strTrim raw))))
              (strTrim (stripFences (strTrim raw))) 0).content, cfgFaq⟩]
      ++ (match res (generateFullContent gw (jget md "title") outline client) with
          | .error _ => []
          | .ok _ =>
            [.progress "Generating featured image...",
             .call ⟨"imagen-3.0-generate-002",
               jsShow (jget md "title") ++ ". " ++ jsShow (jget md "angle") ++ ". A cinematic, photorealistic, high-quality image, no text or words on the image.",
               withImageFlag cfgImage⟩]
            ++ (match res (generateFeaturedImage gw (jget md "title") (jget md "angle")) with
                | .error _ => []
                | .ok _ => [.progress "Finalizing post..."]))) := by
  unfold generateFullBlog
  simp only [trc_bind, res_bind, trc_stProgress, res_stProgress, trc_stLift, res_stLift,
    trc_pure, res_pure, h1, h2, h3, h4,
    trc_findTrendingTopic, trc_generateBlogDetails, trc_generateOutline,
    trc_generateFullContent gw (jget md "title") outline client cbody raw h5 h6,
    trc_generateFeaturedImage]
  cases hc : res (generateFullContent gw (jget md "title") outline client) with
  | error e => simp
  | ok content =>
      cases hfi : res (generateFeaturedImage gw (jget md "title") (jget md "angle")) <;> simp

theorem strAppend_assoc (a b c : String) : a ++ b ++ c = a ++ (b ++ c) := by
  obtain ⟨la⟩ := a
  obtain ⟨lb⟩ := b
  obtain ⟨lc⟩ := c
  show String.mk (la ++ lb ++ lc) = String.mk (la ++ (lb ++ lc))
  rw [List.append_assoc]

theorem strAppend_empty (a : String) : a ++ "" = a := by
  obtain ⟨la⟩ := a
  show String.mk (la ++ []) = String.mk la
  rw [List.append_nil]

theorem strEmpty_append (a : String) : "" ++ a = a := rfl

theorem joinNl_substring (u : String) (l : List String) (hu : u ∈ l) :
    IsSubstring u (joinNl l) := by
  induction l with
  | nil => cases hu
  | cons a rest ih =>
      rcases List.mem_cons.mp hu with heq | hmem
      · subst heq
        cases rest with
        | nil =>
            refine ⟨"", "", ?_⟩
            rw [strEmpty_append, strAppend_empty]
            rfl
        | cons b tl =>
            refine ⟨"", "\n" ++ joinNl (b :: tl), ?_⟩
            rw [strEmpty_append, ← strAppend_assoc]
            rfl
      · have hne : rest ≠ [] := by
          intro hnil
          rw [hnil] at hmem
          cases hmem
        obtain ⟨pre, suf, hps⟩ := ih hmem
        refine ⟨a ++ "\n" ++ pre, suf, ?_⟩
        cases rest with
        | nil => exact absurd rfl hne
        | cons b tl =>
            show a ++ "\n" ++ joinNl (b :: tl) = a ++ "\n" ++ pre ++ u ++ suf
            rw [hps, strAppend_assoc pre u suf, ← strAppend_assoc (a ++ "\n") pre (u ++ suf),
              ← strAppend_assoc (a ++ "\n" ++ pre) u suf]

theorem sitemapBlock_substring (client : Client) (u : String) (hu : u ∈ client.sitemapUrls) :
    IsSubstring u (sitemapBlock client) := by
  unfold sitemapBlock
  have hne : client.sitemapUrls.isEmpty = false := by
    cases hl : client.sitemapUrls with
    | nil => rw [hl] at hu; cases hu
    | cons a tl => rfl
  rw [hne]
  simp only [Bool.false_eq_true, if_false]
  exact joinNl_substring u client.sitemapUrls hu

theorem generateFullContent_err_call (gw : Gateway) (title : Option JsonVal) (outline : String)
    (client : Client) (e : String)
    (h : res (callGeminiProxy gw "gemini-2.5-flash" (contentPrompt title outline client) cfgNone)
      = .error e) :
    res (generateFullContent gw title outline client) = .error e := by
  unfold generateFullContent
  simp only [res_bind, h]

theorem generateFullContent_err_text (gw : Gateway) (title : Option JsonVal) (outline : String)
    (client : Client) (body : JsonVal) (e : String)
    (h1 : res (callGeminiProxy gw "gemini-2.5-flash" (contentPrompt title outline client) cfgNone)
      = .ok body)
    (h2 : rawTextOfBody body = .error e) :
    res (generateFullContent gw title outline client) = .error e := by
  unfold generateFullContent
  simp only [res_bind, res_stLift, h1, h2]

theorem generateFullBlog_err_topic (gw : Gateway) (client : Client) (e : String)
    (h : res (findTrendingTopic gw client) = .error e) :
    res (generateFullBlog gw client) = .error e := by
  unfold generateFullBlog
  simp only [res_bind, res_stProgress, h]

theorem generateFullBlog_err_details (gw : Gateway) (client : Client) (topic e : String)
    (h1 : res (findTrendingTopic gw client) = .ok topic)
    (h2 : res (generateBlogDetails gw client topic) = .error e) :
    res (generateFullBlog gw client) = .error e := by
  unfold generateFullBlog
  simp only [res_bind, res_stProgress, h1, h2]

theorem generateFullBlog_err_destructure (gw : Gateway) (client : Client) (topic : String)
    (md : JsonVal) (e : String)
    (h1 : res (findTrendingTopic gw client) = .ok topic)
    (h2 : res (generateBlogDetails gw client topic) = .ok md)
    (h3 : destructureOk md = .error e) :
    res (generateFullBlog gw client) = .error e := by
  unfold generateFullBlog
  simp only [res_bind, res_stProgress, res_stLift, h1, h2, h3]

theorem generateFullBlog_err_outline (gw : Gateway) (client : Client) (topic : String)
    (md : JsonVal) (e : String)
    (h1 : res (findTrendingTopic gw client) = .ok topic)
    (h2 : res (generateBlogDetails gw client topic) = .ok md)
    (h3 : destructureOk md = .ok ())
    (h4 : res (generateOutline gw (jget md "title") (jget md "angle")) = .error e) :
    res (generateFullBlog gw client) = .error e := by
  unfold generateFullBlog
  simp only [res_bind, res_stProgress, res_stLift, h1, h2, h3, h4]

theorem generateFullBlog_err_featured (gw : Gateway) (client : Client) (topic : String)
    (md : JsonVal) (outline content e : String)
    (h1 : res (findTrendingTopic gw client) = .ok topic)
    (h2 : res (generateBlogDetails gw client topic) = .ok md)
    (h3 : destructureOk md = .ok ())
    (h4 : res (generateOutline gw (jget md "title") (jget md "angle")) = .ok outline)
    (h5 : res (generateFullContent gw (jget md "title") outline client) = .ok content)
    (h6 : res (generateFeaturedImage gw (jget md "title") (jget md "angle")) = .error e) :
    res (generateFullBlog gw client) = .error e := by
  unfold generateFullBlog
  simp only [res_bind, res_stProgress, res_stLift, res_pure, h1, h2, h3, h4, h5, h6]

/-! ### The claims -/

/-- C6: with the deterministic round-trip stub gateway (topic "AI in
    retail", metadata title "T" / angle "A" / five keywords, an outline, a
    content body, three FAQ entries and featured-image bytes "IMG"), the
    assembled `BlogPost` has `title` exactly `"T"` and
    `featuredImageBase64` exactly `"IMG"`. -/
theorem round_trip_title_featured_image :
    (res (generateFullBlog gwRoundTrip clientA)).map
      (fun p => (p.title, p.featuredImageBase64)) =
    .ok (some (.jstr "T"), some (.jstr "IMG")) := rfl

/-- C7 counterexample: when the metadata response text is `"{}"` — valid
    JSON with every required field missing — `generateBlogDetails` does not
    fail: it returns the empty object, whose `title`, `angle` and
    `keywords` members are all `undefined`. -/
theorem blog_details_missing_fields_counterexample :
    res (generateBlogDetails gwDetailsEmpty clientA "t") = .ok (.jobj []) ∧
    jget (.jobj []) "title" = none ∧
    jget (.jobj []) "angle" = none ∧
    jget (.jobj []) "keywords" = none :=
  ⟨rfl, rfl, rfl, rfl⟩

/-- C7 amended: `generateBlogDetails` returns exactly
    `JSON.parse(response.text)` — it fails precisely when the text fails to
    parse as JSON, and performs no required-field validation on the parsed
    object. -/
theorem blog_details_parse_behaviour (gw : Gateway) (client : Client) (topic : String)
    (body : JsonVal)
    (h : res (callGeminiProxy gw "gemini-2.5-flash" (detailsPrompt client topic) cfgDetails)
      = .ok body) :
    res (generateBlogDetails gw client topic) = jsonParse (jsShow (jget body "text")) := by
  unfold generateBlogDetails
  simp only [res_bind, res_stLift, h]

/-- Witness for C7's amended theorem: a non-JSON metadata response makes
    the stage fail with the parse error. -/
theorem blog_details_parse_behaviour_witness :
    res (generateBlogDetails gwDetailsBad clientA "t") =
      jsonParse (jsShow (jget (mkTextBody "not json") "text")) ∧
    (jsonParse (jsShow (jget (mkTextBody "not json") "text"))).isOk = false :=
  ⟨blog_details_parse_behaviour gwDetailsBad clientA "t" (mkTextBody "not json") rfl,
   by decide⟩

/-- C8 counterexample: on a 500 response whose body is the backend failure
    shape `{error, details}`, the thrown message interpolates the
    nonexistent `message` member — it reads `... - undefined` and carries
    neither the `error` nor the `details` text the backend supplied. -/
theorem proxy_error_message_counterexample :
    res (callGeminiProxy gw500 "gemini-2.5-flash" "p" cfgNone) =
      .error "Failed to call Gemini API via proxy: Backend proxy error: 500 Internal Server Error - undefined" ∧
    hasSubstr "Failed to call Gemini API via proxy: Backend proxy error: 500 Internal Server Error - undefined"
      "Proxy backend failure" = false ∧
    hasSubstr "Failed to call Gemini API via proxy: Backend proxy error: 500 Internal Server Error - undefined"
      "quota exceeded" = false ∧
    hasSubstr "Failed to call Gemini API via proxy: Backend proxy error: 500 Internal Server Error - undefined"
      "undefined" = true :=
  ⟨rfl, by decide, by decide, by decide⟩

/-- C8 amended: on a non-ok response the helper throws an error carrying
    the HTTP status, status text and the body's (nonexistent) `message`
    member — not the backend `error`/`details` fields; on an ok response
    with a JSON body, `callGeminiProxy` returns that body unmodified. -/
theorem proxy_error_status_behaviour (gw : Gateway) (m c : String) (cfg : GenConfig)
    (resp : HttpResponse) (hgw : gw ⟨m, c, cfg⟩ = .ok resp) :
    (resp.respOk = false →
      res (callGeminiProxy gw m c cfg) =
        .error ("Failed to call Gemini API via proxy: " ++ proxyFailMsg resp)) ∧
    (∀ b, resp.respOk = true → resp.body = some b →
      res (callGeminiProxy gw m c cfg) = .ok b) := by
  constructor
  · intro hok
    unfold callGeminiProxy
    simp [res, hgw, hok]
  · intro b hok hb
    exact res_callGeminiProxy_ok gw m c cfg resp b hgw hok hb

/-- Witness for C8's amended theorem at the concrete 500 scenario. -/
theorem proxy_error_status_behaviour_witness :
    res (callGeminiProxy gw500 "m" "c" cfgNone) =
      .error ("Failed to call Gemini API via proxy: " ++ proxyFailMsg resp500) :=
  (proxy_error_status_behaviour gw500 "m" "c" cfgNone resp500 rfl).1 rfl

/-- C10 counterexample: a 2xx response whose body is not valid JSON lacks
    an image, yet the image helper (and so the image stage) fails — so an
    image stage can fail on a 2xx response after all. -/
theorem image_proxy_invalid_body_counterexample :
    gwBadBody ⟨"imagen-3.0-generate-002",
      "x. A cinematic, photorealistic, high-quality image, no text or words on the image.",
      withImageFlag cfgImage⟩ = .ok ⟨true, 200, "OK", none⟩ ∧
    res (generateInBodyImage gwBadBody "x") =
      .error "Failed to call Gemini Image API via proxy: Unexpected end of JSON input" :=
  ⟨rfl, rfl⟩

/-- C10 amended: on a 2xx response whose JSON body has no `imageBytes`
    member, `callGeminiImageProxy` returns the body's `text` member without
    raising; given a delivered response, it fails only when the status was
    non-ok or the body was not valid JSON. -/
theorem image_proxy_text_fallback (gw : Gateway) (m p : String) (cfg : GenConfig)
    (resp : HttpResponse) (b : JsonVal)
    (hgw : gw ⟨m, p, withImageFlag cfg⟩ = .ok resp) :
    (resp.respOk = true → resp.body = some b → jget b "imageBytes" = none →
      res (callGeminiImageProxy gw m p cfg) = .ok (jget b "text")) ∧
    (∀ e, res (callGeminiImageProxy gw m p cfg) = .error e →
      resp.respOk = false ∨ resp.body = none) := by
  constructor
  · intro hok hb hib
    unfold callGeminiImageProxy
    simp [res, hgw, hok, hb, hib, jsOr, jsFalsy]
  · intro e he
    cases hok : resp.respOk with
    | false => exact Or.inl rfl
    | true =>
        cases hb : resp.body with
        | none => exact Or.inr rfl
        | some b2 =>
            have hco : res (callGeminiImageProxy gw m p cfg) =
                .ok (jsOr (jget b2 "imageBytes") (jget b2 "text")) := by
              unfold callGeminiImageProxy
              simp [res, hgw, hok, hb]
            rw [hco] at he
            cases he

/-- Witness for C10's amended theorem: a 2xx text-only body makes the
    helper return the text member. -/
theorem image_proxy_text_fallback_witness :
    res (callGeminiImageProxy gwDetailsBad "imagen-3.0-generate-002" "x" cfgImage) =
      .ok (jget (mkTextBody "not json") "text") :=
  (image_proxy_text_fallback gwDetailsBad "imagen-3.0-generate-002" "x" cfgImage
    ⟨true, 200, "OK", some (mkTextBody "not json")⟩ (mkTextBody "not json") rfl).1 rfl rfl rfl

/-- C4 counterexample: a successful run whose content body links to
    `https://x.test/evil`, a URL absent from the client's `sitemapUrls`,
    produces a `BlogPost` whose content still references that URL — the
    pipeline performs no internal-link filtering. -/
theorem internal_link_escape_counterexample :
    (res (generateFullBlog gwLink clientA)).map
      (fun p => hasSubstr p.content "https://x.test/evil") = .ok true ∧
    "https://x.test/evil" ∉ clientA.sitemapUrls :=
  ⟨rfl, by decide⟩

/-- C4 amended: the pipeline constrains internal links only through the
    prompt — every URL of `ClientProfile.sitemapUrls` is contained in the
    content prompt's link list — but never verifies the returned content,
    so containment of the content's links in `sitemapUrls` is not
    guaranteed. -/
theorem content_prompt_contains_sitemap_urls (client : Client) (title : Option JsonVal)
    (outline : String) (u : String) (hu : u ∈ client.sitemapUrls) :
    IsSubstring u (contentPrompt title outline client) := by
  obtain ⟨p, sfx, hps⟩ := sitemapBlock_substring client u hu
  refine ⟨contentPromptHead title outline client ++ p, sfx ++ "\n  ", ?_⟩
  unfold contentPrompt
  rw [hps]
  simp only [strAppend_assoc]

/-- Witness for C4's amended theorem at a concrete client. -/
theorem content_prompt_contains_sitemap_urls_witness :
    "https://x.test/a" ∈ clientA.sitemapUrls ∧
    IsSubstring "https://x.test/a" (contentPrompt none "o" clientA) :=
  ⟨by decide,
   content_prompt_contains_sitemap_urls clientA none "o" "https://x.test/a" (by decide)⟩

/-- C2 counterexample: a successful run in which the gateway's content
    body contains an H1 heading yields a `BlogPost` whose content contains
    an H1 tag — the pipeline never strips or rejects H1 tags. -/
theorem content_h1_counterexample :
    (res (generateFullBlog gwH1 clientA)).map
      (fun p => hasSubstr p.content "<h1>") = .ok true := rfl

/-- C2 amended: in a successful content stage the final content is the
    gateway body with the loop's spliced images followed by the FAQ block;
    the loop inserts at most 2 images, attempting at most one image per
    matched H2/H3 heading in document order — but no bound holds on tags
    already present in the gateway's body (no H1 stripping, no global img
    count). -/
theorem content_image_insertion_bounded (gw : Gateway) (title : Option JsonVal)
    (outline : String) (client : Client) (body : JsonVal) (raw faqHtml : String)
    (h1 : res (callGeminiProxy gw "gemini-2.5-flash" (contentPrompt title outline client) cfgNone)
      = .ok body)
    (h2 : rawTextOfBody body = .ok raw)
    (h3 : res (generateFaqSection gw title (contentLoop gw raw).content) = .ok faqHtml) :
    res (generateFullContent gw title outline client) =
      .ok ((contentLoop gw raw).content ++ faqHtml) ∧
    (contentLoop gw raw).count ≤ 2 ∧
    (contentLoop gw raw).attempted ≤
      (findHeadings (strTrim (stripFences (strTrim raw)))).length :=
  ⟨generateFullContent_ok gw title outline client body raw faqHtml h1 h2 h3,
   insertImages_count_le gw _ _ 0 (by omega),
   insertImages_attempted_le gw _ _ 0⟩

/-- Witness for C2's amended theorem on the round-trip stub. -/
theorem content_image_insertion_bounded_witness :
    res (generateFullContent gwRoundTrip none "o" clientA) =
      .ok ((contentLoop gwRoundTrip "<h2>Intro</h2><p>...</p>").content ++
        faqSectionHtml faqs3) ∧
    (contentLoop gwRoundTrip "<h2>Intro</h2><p>...</p>").count ≤ 2 ∧
    (contentLoop gwRoundTrip "<h2>Intro</h2><p>...</p>").attempted ≤
      (findHeadings (strTrim (stripFences (strTrim "<h2>Intro</h2><p>...</p>")))).length :=
  content_image_insertion_bounded gwRoundTrip none "o" clientA
    (mkTextBody "<h2>Intro</h2><p>...</p>") "<h2>Intro</h2><p>...</p>"
    (faqSectionHtml faqs3) rfl rfl rfl

/-- C3: per-heading image failures are caught inside the loop: if at least
    one attempted inline image threw, the content stage still succeeds
    (given the text and FAQ calls succeed) and the number of inserted
    images is strictly less than the number of attempted headings. -/
theorem inline_image_failure_tolerated (gw : Gateway) (title : Option JsonVal)
    (outline : String) (client : Client) (body : JsonVal) (raw faqHtml : String)
    (h1 : res (callGeminiProxy gw "gemini-2.5-flash" (contentPrompt title outline client) cfgNone)
      = .ok body)
    (h2 : rawTextOfBody body = .ok raw)
    (h3 : res (generateFaqSection gw title (contentLoop gw raw).content) = .ok faqHtml)
    (hfail : 1 ≤ (contentLoop gw raw).failed) :
    res (generateFullContent gw title outline client) =
      .ok ((contentLoop gw raw).content ++ faqHtml) ∧
    (contentLoop gw raw).count < (contentLoop gw raw).attempted := by
  refine ⟨generateFullContent_ok gw title outline client body raw faqHtml h1 h2 h3, ?_⟩
  have hb : (contentLoop gw raw).count + (contentLoop gw raw).failed =
      0 + (contentLoop gw raw).attempted :=
    insertImages_balance gw (findHeadings (strTrim (stripFences (strTrim raw))))
      (strTrim (stripFences (strTrim raw))) 0
  omega

/-- Witness for C3 on the stub whose image calls all fail over a
    three-heading body. -/
theorem inline_image_failure_tolerated_witness :
    res (generateFullContent gwImgFail none "o" clientA) =
      .ok ((contentLoop gwImgFail "<h2>A</h2><p>x</p><h3>B</h3><p>y</p><h2>C</h2>").content ++
        faqSectionHtml faqs3) ∧
    (contentLoop gwImgFail "<h2>A</h2><p>x</p><h3>B</h3><p>y</p><h2>C</h2>").count <
      (contentLoop gwImgFail "<h2>A</h2><p>x</p><h3>B</h3><p>y</p><h2>C</h2>").attempted :=
  inline_image_failure_tolerated gwImgFail none "o" clientA
    (mkTextBody "<h2>A</h2><p>x</p><h3>B</h3><p>y</p><h2>C</h2>")
    "<h2>A</h2><p>x</p><h3>B</h3><p>y</p><h2>C</h2>"
    (faqSectionHtml faqs3) rfl rfl rfl (by decide)

/-- C5: on a successful run the content stage's output is the image-spliced
    body followed by exactly the one appended FAQ block, which consists of
    the "Frequently Asked Questions" heading section, one `<h3>`/`<p>` pair
    per FAQ entry, and a single `ld+json` script block encoding the same
    entry list as a schema.org FAQPage object. -/
theorem faq_block_appended_structure (gw : Gateway) (title : Option JsonVal)
    (outline : String) (client : Client) (cbody : JsonVal) (raw : String)
    (fbody parsed : JsonVal) (faqs : List JsonVal)
    (h1 : res (callGeminiProxy gw "gemini-2.5-flash" (contentPrompt title outline client) cfgNone)
      = .ok cbody)
    (h2 : rawTextOfBody cbody = .ok raw)
    (h3 : res (callGeminiProxy gw "gemini-2.5-flash"
        (faqPrompt title (contentLoop gw raw).content) cfgFaq) = .ok fbody)
    (h4 : jsonParse (jsShow (jget fbody "text")) = .ok parsed)
    (h5 : faqsOfParsed parsed = .ok faqs) :
    res (generateFullContent gw title outline client) =
      .ok ((contentLoop gw raw).content ++ faqSectionHtml faqs) ∧
    faqSectionHtml faqs = faqHeaderHtml ++ faqItemsHtml faqs ++ faqFooterHtml faqs ∧
    faqHeaderHtml =
      "\n    <div class=\"faq-section\">\n      <h2>Frequently Asked Questions</h2>\n  " ∧
    faqItemsHtml faqs = String.join (faqs.map faqItemHtml) ∧
    faqFooterHtml faqs = "\n    </div>\n    <script type=\"application/ld+json\">\n      " ++
      jsonStringify (faqPageSchemaOf faqs) ++ "\n    </script>\n  " := by
  have hfaq := generateFaqSection_ok gw title (contentLoop gw raw).content fbody parsed faqs h3 h4 h5
  exact ⟨generateFullContent_ok gw title outline client cbody raw _ h1 h2 hfaq,
    rfl, rfl, rfl, rfl⟩

/-- Witness for C5 on the round-trip stub. -/
theorem faq_block_appended_structure_witness :
    res (generateFullContent gwRoundTrip none "o" clientA) =
      .ok ((contentLoop gwRoundTrip "<h2>Intro</h2><p>...</p>").content ++
        faqSectionHtml faqs3) ∧
    faqSectionHtml faqs3 = faqHeaderHtml ++ faqItemsHtml faqs3 ++ faqFooterHtml faqs3 ∧
    faqHeaderHtml =
      "\n    <div class=\"faq-section\">\n      <h2>Frequently Asked Questions</h2>\n  " ∧
    faqItemsHtml faqs3 = String.join (faqs3.map faqItemHtml) ∧
    faqFooterHtml faqs3 = "\n    </div>\n    <script type=\"application/ld+json\">\n      " ++
      jsonStringify (faqPageSchemaOf faqs3) ++ "\n    </script>\n  " :=
  faq_block_appended_structure gwRoundTrip none "o" clientA
    (mkTextBody "<h2>Intro</h2><p>...</p>") "<h2>Intro</h2><p>...</p>"
    (mkTextBody faqJson3) (.jobj [("faqs", .jarr faqs3)]) faqs3 rfl rfl rfl rfl rfl

/-- C1: all-or-nothing production — an error thrown by any stage other
    than inline-image generation (topic, metadata, the metadata
    destructuring, outline, the content stage with its FAQ sub-stage, or
    featured image) propagates out of `generateFullBlog`, so the run
    returns no `BlogPost`; in particular, a failed parse in the FAQ stage
    aborts the content stage and with it the whole run. -/
theorem generateFullBlog_all_or_nothing (gw : Gateway) (client : Client) :
    (∀ e, res (findTrendingTopic gw client) = .error e →
      res (generateFullBlog gw client) = .error e) ∧
    (∀ topic e, res (findTrendingTopic gw client) = .ok topic →
      res (generateBlogDetails gw client topic) = .error e →
      res (generateFullBlog gw client) = .error e) ∧
    (∀ topic md e, res (findTrendingTopic gw client) = .ok topic →
      res (generateBlogDetails gw client topic) = .ok md →
      destructureOk md = .ok () →
      res (generateOutline gw (jget md "title") (jget md "angle")) = .error e →
      res (generateFullBlog gw client) = .error e) ∧
    (∀ topic md outline e, res (findTrendingTopic gw client) = .ok topic →
      res (generateBlogDetails gw client topic) = .ok md →
      destructureOk md = .ok () →
      res (generateOutline gw (jget md "title") (jget md "angle")) = .ok outline →
      res (generateFullContent gw (jget md "title") outline client) = .error e →
      res (generateFullBlog gw client) = .error e) ∧
    (∀ topic md outline content e, res (findTrendingTopic gw client) = .ok topic →
      res (generateBlogDetails gw client topic) = .ok md →
      destructureOk md = .ok () →
      res (generateOutline gw (jget md "title") (jget md "angle")) = .ok outline →
      res (generateFullContent gw (jget md "title") outline client) = .ok content →
      res (generateFeaturedImage gw (jget md "title") (jget md "angle")) = .error e →
      res (generateFullBlog gw client) = .error e) ∧
    (∀ title outline body raw e,
      res (callGeminiProxy gw "gemini-2.5-flash" (contentPrompt title outline client) cfgNone)
        = .ok body →
      rawTextOfBody body = .ok raw →
      res (generateFaqSection gw title (contentLoop gw raw).content) = .error e →
      res (generateFullContent gw title outline client) = .error e) :=
  ⟨fun e h => generateFullBlog_err_topic gw client e h,
   fun topic e h1 h2 => generateFullBlog_err_details gw client topic e h1 h2,
   fun topic md e h1 h2 h3 h4 => generateFullBlog_err_outline gw client topic md e h1 h2 h3 h4,
   fun topic md outline e h1 h2 h3 h4 h5 =>
     generateFullBlog_err_content gw client topic md outline e h1 h2 h3 h4 h5,
   fun topic md outline content e h1 h2 h3 h4 h5 h6 =>
     generateFullBlog_err_featured gw client topic md outline content e h1 h2 h3 h4 h5 h6,
   fun title outline body raw e h1 h2 h3 =>
     generateFullContent_err_faq gw title outline client body raw e h1 h2 h3⟩

/-- Witness for C1: with the round-trip stub whose FAQ response is not
    valid JSON, the whole run fails with the FAQ parse error. -/
theorem generateFullBlog_all_or_nothing_witness :
    res (generateFullBlog gwFaqBad clientA) =
      .error "SyntaxError: Unexpected token in JSON" :=
  (generateFullBlog_all_or_nothing gwFaqBad clientA).2.2.2.1 "AI in retail" mdRT
    "<h2>Intro</h2>..." "SyntaxError: Unexpected token in JSON" rfl rfl rfl rfl rfl

/-- C9: every successful run performs the stages in the fixed order topic,
    metadata, outline, content (inline-image calls and the FAQ call
    inside), featured image, assemble, and exactly one progress message is
    emitted at each stage boundary (each message announcing the stage about
    to run, emitted after the previous stage completed and before the next
    gateway call). -/
theorem pipeline_stage_order_progress (gw : Gateway) (client : Client)
    (hsucc : (res (generateFullBlog gw client)).isOk = true) :
    ∃ (topic : String) (md : JsonVal) (outline raw : String) (imgEvents : List Ev),
      (∀ e ∈ imgEvents, ∃ rq, e = .call rq ∧ rq.config.isImageGeneration = true) ∧
      trc (generateFullBlog gw client) =
        [.progress "Finding trending topic...",
         .call ⟨"gemini-2.5-flash", topicPrompt client, cfgTools⟩,
         .progress ("Generating title, angle, and keywords for: \"" ++ topic ++ "\""),
         .call ⟨"gemini-2.5-flash", detailsPrompt client topic, cfgDetails⟩,
         .progress "Creating blog post outline...",
         .call ⟨"gemini-2.5-flash", outlinePrompt (jget md "title") (jget md "angle"), cfgNone⟩,
         .progress "Writing full blog post content...",
         .call ⟨"gemini-2.5-flash", contentPrompt (jget md "title") outline client, cfgNone⟩]
        ++ imgEvents ++
        [.call ⟨"gemini-2.5-flash",
           faqPrompt (jget md "title") (contentLoop gw raw).content, cfgFaq⟩,
         .progress "Generating featured image...",
         .call ⟨"imagen-3.0-generate-002",
           jsShow (jget md "title") ++ ". " ++ jsShow (jget md "angle") ++
             ". A cinematic, photorealistic, high-quality image, no text or words on the image.",
           withImageFlag cfgImage⟩,
         .progress "Finalizing post..."] := by
  cases h1 : res (findTrendingTopic gw client) with
  | error e =>
      rw [generateFullBlog_err_topic gw client e h1] at hsucc
      exact Bool.noConfusion hsucc
  | ok topic =>
  cases h2 : res (generateBlogDetails gw client topic) with
  | error e =>
      rw [generateFullBlog_err_details gw client topic e h1 h2] at hsucc
      exact Bool.noConfusion hsucc
  | ok md =>
  cases h3 : destructureOk md with
  | error e =>
      rw [generateFullBlog_err_destructure gw client topic md e h1 h2 h3] at hsucc
      exact Bool.noConfusion hsucc
  | ok u =>
  cases u
  cases h4 : res (generateOutline gw (jget md "title") (jget md "angle")) with
  | error e =>
      rw [generateFullBlog_err_outline gw client topic md e h1 h2 h3 h4] at hsucc
      exact Bool.noConfusion hsucc
  | ok outline =>
  cases h5 : res (callGeminiProxy gw "gemini-2.5-flash"
      (contentPrompt (jget md "title") outline client) cfgNone) with
  | error e =>
      have hc := generateFullContent_err_call gw (jget md "title") outline client e h5
      rw [generateFullBlog_err_content gw client topic md outline e h1 h2 h3 h4 hc] at hsucc
      exact Bool.noConfusion hsucc
  | ok cbody =>
  cases h6 : rawTextOfBody cbody with
  | error e =>
      have hc := generateFullContent_err_text gw (jget md "title") outline client cbody e h5 h6
      rw [generateFullBlog_err_content gw client topic md outline e h1 h2 h3 h4 hc] at hsucc
      exact Bool.noConfusion hsucc
  | ok raw =>
  cases h7 : res (generateFaqSection gw (jget md "title") (contentLoop gw raw).content) with
  | error e =>
      have hc := generateFullContent_err_faq gw (jget md "title") outline client cbody raw e h5 h6 h7
      rw [generateFullBlog_err_content gw client topic md outline e h1 h2 h3 h4 hc] at hsucc
      exact Bool.noConfusion hsucc
  | ok faqH =>
  have h8 : res (generateFullContent gw (jget md "title") outline client) =
      .ok ((contentLoop gw raw).content ++ faqH) :=
    generateFullContent_ok gw (jget md "title") outline client cbody raw faqH h5 h6 h7
  cases h9 : res (generateFeaturedImage gw (jget md "title") (jget md "angle")) with
  | error e =>
      rw [generateFullBlog_err_featured gw client topic md outline
        ((contentLoop gw raw).content ++ faqH) e h1 h2 h3 h4 h8 h9] at hsucc
      exact Bool.noConfusion hsucc
  | ok featured =>
  refine ⟨topic, md, outline, raw, (contentLoop gw raw).events,
    insertImages_events_image gw _ _ 0, ?_⟩
  rw [trc_generateFullBlog gw client topic md outline cbody raw h1 h2 h3 h4 h5 h6]
  simp [h8, h9, contentLoop]

/-- Witness for C9 on the round-trip stub: the run succeeds, so the trace
    has the stated shape. -/
theorem pipeline_stage_order_progress_witness :
    (res (generateFullBlog gwRoundTrip clientA)).isOk = true ∧
    ∃ (topic : String) (md : JsonVal) (outline raw : String) (imgEvents : List Ev),
      (∀ e ∈ imgEvents, ∃ rq, e = .call rq ∧ rq.config.isImageGeneration = true) ∧
      trc (generateFullBlog gwRoundTrip clientA) =
        [.progress "Finding trending topic...",
         .call ⟨"gemini-2.5-flash", topicPrompt clientA, cfgTools⟩,
         .progress ("Generating title, angle, and keywords for: \"" ++ topic ++ "\""),
         .call ⟨"gemini-2.5-flash", detailsPrompt clientA topic, cfgDetails⟩,
         .progress "Creating blog post outline...",
         .call ⟨"gemini-2.5-flash", outlinePrompt (jget md "title") (jget md "angle"), cfgNone⟩,
         .progress "Writing full blog post content...",
         .call ⟨"gemini-2.5-flash", contentPrompt (jget md "title") outline clientA, cfgNone⟩]
        ++ imgEvents ++
        [.call ⟨"gemini-2.5-flash",
           faqPrompt (jget md "title") (contentLoop gwRoundTrip raw).content, cfgFaq⟩,
         .progress "Generating featured image...",
         .call ⟨"imagen-3.0-generate-002",
           jsShow (jget md "title") ++ ". " ++ jsShow (jget md "angle") ++
             ". A cinematic, photorealistic, high-quality image, no text or words on the image.",
           withImageFlag cfgImage⟩,
         .progress "Finalizing post..."] :=
  ⟨rfl, pipeline_stage_order_progress gwRoundTrip clientA rfl⟩
